import Mathlib

/-!
Verification of the factory digital twin (src/app.py).

The source is a streamlit front-end around a simpy discrete-event
simulation of a three-stage production line (Prep, Machining, QC),
followed by an inline metrics block (lines 111-176) deriving
utilization, bottleneck, financial figures and lead time from the
trace produced by the run.

Rationals stand in for Python floats: every quantity the metrics block
manipulates is produced by +, -, *, / on the inputs, and all concrete
test values used below are exactly representable.  Randomness enters
the model as an explicit stream of unit-mean exponential variate
values, one per call of random.expovariate in the source;
random.expovariate(1.0/m) scales a unit-mean variate by m, and the
variate function itself is modelled separately over the reals.
-/

/-- The three production stages, in line order (src/app.py lines 62-82;
the source tags records with the strings "1. Prep", "2. Machining",
"3. QC"). -/
inductive Stage
  | prep
  | machining
  | qc
  deriving DecidableEq

/-- One entry of ProductionLine.logs (src/app.py lines 84-91): the dict
with keys Part, Stage, Start, Finish, Duration. -/
structure StageRecord where
  part : String
  stage : Stage
  start : ℚ
  finish : ℚ
  duration : ℚ
  deriving DecidableEq

/-- ProductionLine.log_data (src/app.py lines 84-91) builds the record it
appends; the Duration field is set to finish - start. -/
def log_data (name : String) (stage : Stage) (start finish : ℚ) : StageRecord :=
  ⟨name, stage, start, finish, finish - start⟩

/-- The static configuration read from the sidebar widgets
(src/app.py lines 28-46). -/
structure Config where
  c_prep : ℕ
  c_machining : ℕ
  c_qc : ℕ
  t_prep : ℚ
  t_machining : ℚ
  t_qc : ℚ
  price_per_unit : ℚ
  cost_per_hour : ℚ
  raw_material_cost : ℚ
  sim_duration : ℚ
  arrival_rate : ℚ
  deriving DecidableEq

/-- Errors and special outcomes of a run or of the metrics block.
no_production models the warning branch at src/app.py line 203;
invalid_parameter is the validation error the spec postulates (section 7)
and the source never raises; zero_division models Python raising
ZeroDivisionError on 1.0/mean with mean = 0 (lines 67, 74, 81, 96);
negative_delay models simpy rejecting a negative timeout delay. -/
inductive SimError
  | no_production
  | invalid_parameter
  | zero_division
  | negative_delay
  deriving DecidableEq

/-- finished_parts (src/app.py line 118): the number of records whose
stage is "3. QC". -/
def finished_parts (logs : List StageRecord) : ℕ :=
  (logs.filter (fun r => r.stage == Stage.qc)).length

/-- total_revenue (src/app.py line 121). -/
def total_revenue (fp : ℕ) (price_per_unit : ℚ) : ℚ :=
  (fp : ℚ) * price_per_unit

/-- total_op_cost (src/app.py lines 124-126): total machines times cost
per machine-hour times shift hours, where shift_hours = sim_duration / 60. -/
def total_op_cost (c_prep c_machining c_qc : ℕ) (cost_per_hour sim_duration : ℚ) : ℚ :=
  ((c_prep + c_machining + c_qc : ℕ) : ℚ) * cost_per_hour * (sim_duration / 60)

/-- total_mat_cost (src/app.py line 129). -/
def total_mat_cost (fp : ℕ) (raw_material_cost : ℚ) : ℚ :=
  (fp : ℚ) * raw_material_cost

/-- net_profit (src/app.py line 132). -/
def net_profit (rev opc mat : ℚ) : ℚ :=
  rev - (opc + mat)

/-- roi_margin (src/app.py line 133): guarded division. -/
def roi_margin (profit rev : ℚ) : ℚ :=
  if rev > 0 then profit / rev * 100 else 0

/-- Sum of the stored Duration fields of the records of one stage,
as in df[df[Stage]==s][Duration].sum() (src/app.py lines 137-139). -/
def sum_durations (logs : List StageRecord) (s : Stage) : ℚ :=
  ((logs.filter (fun r => r.stage == s)).map (fun r => r.duration)).sum

/-- The utilization of one stage (src/app.py lines 136-139): summed
durations over capacity times total time, times 100. -/
def stage_util (logs : List StageRecord) (s : Stage) (cap : ℕ) (total_time : ℚ) : ℚ :=
  sum_durations logs s / ((cap : ℚ) * total_time) * 100

/-- The spec formula for utilization (spec section 4.6), written with
finish - start in place of the stored Duration field: sum of durations of
the StageRecords of the stage over capacity times horizon, times 100. -/
def utilization_spec (logs : List StageRecord) (s : Stage) (cap : ℕ) (horizon : ℚ) : ℚ :=
  ((logs.filter (fun r => r.stage == s)).map (fun r => r.finish - r.start)).sum
    / ((cap : ℚ) * horizon) * 100

/-- bottleneck_stage (src/app.py lines 141-142): Python max over the dict
with insertion order Prep, Machining, QC and key=utils.get keeps the
current candidate on ties, so a later stage wins only with a strictly
greater utilization; the running maximum after Prep and Machining is
(if u_mach > u_prep then u_mach else u_prep). -/
def bottleneck_stage (u_prep u_mach u_qc : ℚ) : Stage :=
  if u_qc > (if u_mach > u_prep then u_mach else u_prep) then Stage.qc
  else if u_mach > u_prep then Stage.machining
  else Stage.prep

/-- The Avg Lead Time metric (src/app.py line 174): the flat mean of
Finish - Start over all rows of the trace. -/
def avg_lead_time (logs : List StageRecord) : ℚ :=
  (logs.map (fun r => r.finish - r.start)).sum / (logs.length : ℚ)

/-- Records of one part, by its label. -/
def part_records (logs : List StageRecord) (p : String) : List StageRecord :=
  logs.filter (fun r => r.part == p)

/-- The end-to-end span of one part visible in the trace: last finish
minus first start over its records (0 for an absent part).  This is the
per-part quantity the spec contrasts avg_lead_time with; it is not
computed anywhere in the source. -/
def part_end_to_end (logs : List StageRecord) (p : String) : ℚ :=
  match part_records logs p with
  | [] => 0
  | r :: rs =>
    (rs.map (fun x => x.finish)).foldl max r.finish
      - (rs.map (fun x => x.start)).foldl min r.start

/-- All computed metrics of one run (src/app.py lines 117-176). -/
structure MetricsSummary where
  fp : ℕ
  rev : ℚ
  opc : ℚ
  mat : ℚ
  profit : ℚ
  margin : ℚ
  u_prep : ℚ
  u_mach : ℚ
  u_qc : ℚ
  bottleneck : Stage
  lead_time : ℚ
  throughput : ℚ
  deriving DecidableEq

/-- The metrics block (src/app.py lines 109-203): the dataframe built
from the logs is tested for emptiness first; every derived quantity is
computed only in the non-empty branch, and the empty branch emits the
no-production warning (line 203). -/
def metrics_block (cfg : Config) (logs : List StageRecord) : Except SimError MetricsSummary :=
  if logs.isEmpty then Except.error SimError.no_production
  else
    let fp := finished_parts logs
    let rev := total_revenue fp cfg.price_per_unit
    let opc := total_op_cost cfg.c_prep cfg.c_machining cfg.c_qc cfg.cost_per_hour cfg.sim_duration
    let mat := total_mat_cost fp cfg.raw_material_cost
    let profit := net_profit rev opc mat
    let uP := stage_util logs Stage.prep cfg.c_prep cfg.sim_duration
    let uM := stage_util logs Stage.machining cfg.c_machining cfg.sim_duration
    let uQ := stage_util logs Stage.qc cfg.c_qc cfg.sim_duration
    Except.ok ⟨fp, rev, opc, mat, profit, roi_margin profit rev, uP, uM, uQ,
      bottleneck_stage uP uM uQ, avg_lead_time logs, (fp : ℚ) / (cfg.sim_duration / 60)⟩

/-- The default sidebar configuration of the app (src/app.py lines 28-46). -/
def cfg0 : Config :=
  ⟨2, 1, 2, 10, 15, 8, 150, 20, 40, 480, 5⟩

/-- Claim C1: bottleneck_stage is the argmax of the three utilizations
with ties broken by the fixed precedence Prep, then Machining, then QC;
in particular with Prep and Machining at the equal highest utilization
the result is Prep. -/
theorem bottleneck_tie_precedence (uP uM uQ : ℚ) :
    (uM ≤ uP → uQ ≤ uP → bottleneck_stage uP uM uQ = Stage.prep) ∧
    (uP < uM → uQ ≤ uM → bottleneck_stage uP uM uQ = Stage.machining) ∧
    (uP < uQ → uM < uQ → bottleneck_stage uP uM uQ = Stage.qc) := by
  refine ⟨?_, ?_, ?_⟩ <;> intro h1 h2 <;>
    simp only [bottleneck_stage] <;> split_ifs <;>
    first
      | rfl
      | (exfalso; linarith)

/-- Witness for C1 at concrete utilizations, one per precedence case. -/
theorem bottleneck_tie_precedence_witness :
    bottleneck_stage 70 70 50 = Stage.prep ∧
    bottleneck_stage 10 30 30 = Stage.machining ∧
    bottleneck_stage 10 20 30 = Stage.qc :=
  ⟨(bottleneck_tie_precedence 70 70 50).1 (by norm_num) (by norm_num),
   (bottleneck_tie_precedence 10 30 30).2.1 (by norm_num) (by norm_num),
   (bottleneck_tie_precedence 10 20 30).2.2 (by norm_num) (by norm_num)⟩

/-- Claim C2: for every trace whose stored Duration fields agree with
finish - start (as every record built by log_data does), stage_util
computes the spec formula (sum of stage durations over capacity times
horizon, times 100); concretely one Prep record of duration 40 with
capacity 1 over horizon 100 yields exactly 40. -/
theorem stage_util_matches_spec :
    (∀ (logs : List StageRecord) (s : Stage) (cap : ℕ) (horizon : ℚ),
      (∀ r ∈ logs, r.duration = r.finish - r.start) →
      stage_util logs s cap horizon = utilization_spec logs s cap horizon) ∧
    stage_util [log_data "Part-001" Stage.prep 0 40] Stage.prep 1 100 = 40 := by
  constructor
  · intro logs s cap horizon h
    unfold stage_util utilization_spec sum_durations
    rw [List.map_congr_left fun r hr => h r (List.mem_of_mem_filter hr)]
  · norm_num [stage_util, sum_durations, log_data, List.filter]

/-- Witness for C2 on the concrete one-record trace. -/
theorem stage_util_matches_spec_witness :
    stage_util [log_data "Part-001" Stage.prep 0 40] Stage.prep 1 100 =
      utilization_spec [log_data "Part-001" Stage.prep 0 40] Stage.prep 1 100 :=
  stage_util_matches_spec.1 [log_data "Part-001" Stage.prep 0 40] Stage.prep 1 100
    (by
      intro r hr
      rw [List.mem_singleton] at hr
      subst hr
      rfl)

/-- Claim C3: the financial formulas of the metrics block, and their
round-trip at the spec test point: 10 finished parts at price 150,
capacities summing to 5, cost 20 per machine-hour over a 480-minute
horizon, raw material 40 per unit give revenue 1500, operating cost 800,
material cost 400, net profit 300 and margin 20. -/
theorem financial_arithmetic :
    (∀ (fp : ℕ) (price cph rmc horizon rev opc mat : ℚ) (cP cM cQ : ℕ),
      total_revenue fp price = (fp : ℚ) * price ∧
      total_op_cost cP cM cQ cph horizon = ((cP : ℚ) + (cM : ℚ) + (cQ : ℚ)) * cph * (horizon / 60) ∧
      total_mat_cost fp rmc = (fp : ℚ) * rmc ∧
      net_profit rev opc mat = rev - (opc + mat)) ∧
    total_revenue 10 150 = 1500 ∧
    total_op_cost 2 1 2 20 480 = 800 ∧
    total_mat_cost 10 40 = 400 ∧
    net_profit 1500 800 400 = 300 ∧
    roi_margin 300 1500 = 20 := by
  refine ⟨?_, by norm_num [total_revenue], by norm_num [total_op_cost],
    by norm_num [total_mat_cost], by norm_num [net_profit], by norm_num [roi_margin]⟩
  intro fp price cph rmc horizon rev opc mat cP cM cQ
  refine ⟨rfl, ?_, rfl, rfl⟩
  unfold total_op_cost
  push_cast
  ring

/-- Claim C4: roi_margin divides only under the positivity guard and
returns 0 at zero revenue. -/
theorem roi_margin_guard (profit rev : ℚ) :
    (rev > 0 → roi_margin profit rev = profit / rev * 100) ∧
    (rev = 0 → roi_margin profit rev = 0) := by
  constructor
  · intro h
    simp [roi_margin, h]
  · intro h
    simp [roi_margin, h]

/-- Witness for C4 at revenue 1500 and at revenue 0. -/
theorem roi_margin_guard_witness :
    roi_margin 300 1500 = 300 / 1500 * 100 ∧ roi_margin 300 0 = 0 :=
  ⟨(roi_margin_guard 300 1500).1 (by norm_num), (roi_margin_guard 300 0).2 rfl⟩

/-- Claim C5: on an empty trace the metrics block yields the distinct
no-production outcome and no ratio is computed; every derived metric is
produced only in the non-empty branch, where the block returns a full
summary. -/
theorem empty_trace_no_production (cfg : Config) :
    metrics_block cfg [] = Except.error SimError.no_production ∧
    ∀ logs : List StageRecord, logs ≠ [] → ∃ m, metrics_block cfg logs = Except.ok m := by
  constructor
  · rfl
  · intro logs h
    match logs, h with
    | r :: rs, _ => exact ⟨_, rfl⟩

/-- Witness for C5: the default configuration on a one-record trace. -/
theorem empty_trace_no_production_witness :
    metrics_block cfg0 [] = Except.error SimError.no_production ∧
    ∃ m, metrics_block cfg0 [log_data "Part-001" Stage.qc 0 40] = Except.ok m :=
  ⟨(empty_trace_no_production cfg0).1,
   (empty_trace_no_production cfg0).2 [log_data "Part-001" Stage.qc 0 40]
     (List.cons_ne_nil _ _)⟩

/-- A two-stage trace of a single part used to separate the flat
per-record average from the per-part end-to-end span. -/
def two_stage_trace : List StageRecord :=
  [log_data "Part-001" Stage.prep 0 10, log_data "Part-001" Stage.machining 10 20]

/-- Claim C9: avg_lead_time is the flat arithmetic mean of finish - start
over all StageRecords; on a part with two back-to-back 10-minute stages
it is 10, not the 20-minute end-to-end span of the part. -/
theorem avg_lead_time_flat_mean :
    (∀ logs : List StageRecord,
      avg_lead_time logs = (logs.map (fun r => r.finish - r.start)).sum / (logs.length : ℚ)) ∧
    avg_lead_time two_stage_trace = 10 ∧
    part_end_to_end two_stage_trace "Part-001" = 20 ∧
    avg_lead_time two_stage_trace ≠ part_end_to_end two_stage_trace "Part-001" := by
  have h1 : avg_lead_time two_stage_trace = 10 := by
    norm_num [avg_lead_time, two_stage_trace, log_data]
  have h2 : part_end_to_end two_stage_trace "Part-001" = 20 := by
    norm_num [part_end_to_end, part_records, two_stage_trace, log_data, List.filter]
  refine ⟨fun logs => rfl, h1, h2, ?_⟩
  rw [h1, h2]
  norm_num

/-!
The simulation run.

src/app.py drives simpy: the button handler (lines 101-107) builds an
Environment and a ProductionLine, starts part_generator and calls
env.run(until=sim_duration) with no configuration validation of any
kind in between.  simpy itself is an external library, so the scheduler
and resource semantics below are modelled from the spec (sections
4.1-4.5): a queue of events keyed by (time, insertion sequence), popped
in key order; run(until) stops, setting the clock to the horizon, as
soon as the time of the next event would exceed the horizon; a resource
grants immediately while occupied < capacity and otherwise appends the
request to a FIFO wait list, and release grants the head of the wait
list atomically in the same step.  The process logic (part_generator,
ProductionLine.process_part) is taken from the source: each arrival
draws the next inter-arrival delay and starts a part process; a part
acquires Prep, Machining and QC in order, holds each for a freshly
drawn service duration, logs the completed interval and releases.

Randomness: the stream e gives the successive unit-mean exponential
variate values, one per random.expovariate call in source order;
random.expovariate(1.0/mean) equals mean times such a value.  A zero
mean makes Python raise ZeroDivisionError at the 1.0/mean division the
moment the first sample for that stream is needed; a negative sampled
delay makes the timeout fail.  Both halt the run with the error kept in
the failed field.
-/

/-- The Python expression random.expovariate(lambd) for a uniform draw
u in [0,1): CPython computes -log(1.0 - u)/lambd.  At u = 0 the result
is exactly 0. -/
noncomputable def expovariate (lambd u : ℝ) : ℝ :=
  -(Real.log (1 - u)) / lambd

/-- Pending event kinds: an arrival of part_generator, the start of a
part process created by env.process, and the completion of a service
interval of one part at one stage (carrying the recorded start time). -/
inductive EvKind
  | arrival
  | part_init (part : ℕ)
  | service_done (part : ℕ) (stage : Stage) (start : ℚ)
  deriving DecidableEq

/-- A scheduled event: (time, insertion sequence, kind). -/
abbrev Ev : Type := ℚ × ℕ × EvKind

/-- One simpy.Resource: capacity, occupied slots, FIFO wait list of
part ids (modelled from the spec, section 4.2). -/
structure Pool where
  capacity : ℕ
  occupied : ℕ
  waiting : List ℕ
  deriving DecidableEq

/-- The whole simulation state: clock, insertion sequence counter,
event queue sorted by (time, sequence), the three pools, the trace log,
the part counter of part_generator, the index of the next random draw,
and the error that halted the run, if any. -/
structure SimState where
  now : ℚ
  seq : ℕ
  queue : List Ev
  prep : Pool
  machining : Pool
  qc : Pool
  logs : List StageRecord
  next_part : ℕ
  draws : ℕ
  failed : Option SimError
  deriving DecidableEq

/-- The part label f-string of part_generator (src/app.py line 98):
Part- followed by the number zero-padded to three digits. -/
def part_label (i : ℕ) : String :=
  "Part-" ++ (if i < 10 then "00" else if i < 100 then "0" else "") ++ toString i

/-- The configured mean service time of a stage (src/app.py lines 56-58). -/
def stage_mean (cfg : Config) : Stage → ℚ
  | Stage.prep => cfg.t_prep
  | Stage.machining => cfg.t_machining
  | Stage.qc => cfg.t_qc

/-- The pool serving a stage (src/app.py lines 52-54). -/
def stage_pool (st : SimState) : Stage → Pool
  | Stage.prep => st.prep
  | Stage.machining => st.machining
  | Stage.qc => st.qc

/-- Replace the pool of a stage. -/
def set_pool (st : SimState) : Stage → Pool → SimState
  | Stage.prep, p => { st with prep := p }
  | Stage.machining, p => { st with machining := p }
  | Stage.qc, p => { st with qc := p }

/-- One random.expovariate(1.0/mean) call on draw index k: Python first
computes 1.0/mean, raising ZeroDivisionError when mean = 0, and then
scales the unit-mean variate e k by mean. -/
def draw_exp (mean : ℚ) (e : ℕ → ℚ) (k : ℕ) : Except SimError ℚ :=
  if mean = 0 then Except.error SimError.zero_division
  else Except.ok (mean * e k)

/-- Insert an event keeping the queue sorted by (time, insertion
sequence); later-inserted events at the same time go after earlier ones
(modelled from the spec, section 4.1). -/
def insert_ev : List Ev → Ev → List Ev
  | [], ev => [ev]
  | x :: xs, ev =>
    if ev.1 < x.1 ∨ (ev.1 = x.1 ∧ ev.2.1 < x.2.1) then ev :: x :: xs
    else x :: insert_ev xs ev

/-- Start the service of part p at stage s in an already-occupied slot:
draw the duration, fail on a zero mean or a negative delay, otherwise
schedule the completion event carrying start = now (src/app.py
lines 66-67, 73-74, 80-81). -/
def start_service (cfg : Config) (e : ℕ → ℚ) (st : SimState) (p : ℕ) (s : Stage) : SimState :=
  match draw_exp (stage_mean cfg s) e st.draws with
  | Except.error er => { st with draws := st.draws + 1, failed := some er }
  | Except.ok d =>
    if d < 0 then { st with draws := st.draws + 1, failed := some SimError.negative_delay }
    else { st with
      draws := st.draws + 1,
      seq := st.seq + 1,
      queue := insert_ev st.queue (st.now + d, st.seq, EvKind.service_done p s st.now) }

/-- A resource request (src/app.py lines 64, 71, 78): grant immediately
while occupied < capacity, else join the FIFO wait list (modelled from
the spec, section 4.2). -/
def request_stage (cfg : Config) (e : ℕ → ℚ) (st : SimState) (p : ℕ) (s : Stage) : SimState :=
  if (stage_pool st s).occupied < (stage_pool st s).capacity then
    start_service cfg e
      (set_pool st s { stage_pool st s with occupied := (stage_pool st s).occupied + 1 }) p s
  else
    set_pool st s { stage_pool st s with waiting := (stage_pool st s).waiting ++ [p] }

/-- A resource release at the end of a with-block: hand the slot to the
head of the wait list in the same step, or free it (modelled from the
spec, section 4.2). -/
def release_stage (cfg : Config) (e : ℕ → ℚ) (st : SimState) (s : Stage) : SimState :=
  match (stage_pool st s).waiting with
  | [] => set_pool st s { stage_pool st s with occupied := (stage_pool st s).occupied - 1 }
  | w :: ws => start_service cfg e (set_pool st s { stage_pool st s with waiting := ws }) w s

/-- The fixed stage order of process_part (src/app.py lines 62-82). -/
def next_stage : Stage → Option Stage
  | Stage.prep => some Stage.machining
  | Stage.machining => some Stage.qc
  | Stage.qc => none

/-- One iteration of part_generator (src/app.py lines 93-98) waking
from its inter-arrival timeout: bump the counter, start the new part
process (env.process schedules its first action at the current time),
then draw and schedule the next arrival. -/
def handle_arrival (cfg : Config) (e : ℕ → ℚ) (st : SimState) : SimState :=
  match draw_exp cfg.arrival_rate e st.draws with
  | Except.error er =>
    { st with
      next_part := st.next_part + 1, seq := st.seq + 1,
      queue := insert_ev st.queue (st.now, st.seq, EvKind.part_init (st.next_part + 1)),
      draws := st.draws + 1, failed := some er }
  | Except.ok a =>
    if a < 0 then
      { st with
        next_part := st.next_part + 1, seq := st.seq + 1,
        queue := insert_ev st.queue (st.now, st.seq, EvKind.part_init (st.next_part + 1)),
        draws := st.draws + 1, failed := some SimError.negative_delay }
    else
      { st with
        next_part := st.next_part + 1, seq := st.seq + 2,
        queue := insert_ev
          (insert_ev st.queue (st.now, st.seq, EvKind.part_init (st.next_part + 1)))
          (st.now + a, st.seq + 1, EvKind.arrival),
        draws := st.draws + 1 }

/-- A service completion (src/app.py lines 68, 75, 82): append the
record for the finished interval, release the slot, then move the part
to its next stage, or let it depart after QC. -/
def handle_service_done (cfg : Config) (e : ℕ → ℚ) (st : SimState)
    (p : ℕ) (s : Stage) (t0 : ℚ) : SimState :=
  match next_stage s with
  | some s2 =>
    request_stage cfg e
      (release_stage cfg e
        { st with logs := st.logs ++ [log_data (part_label p) s t0 st.now] } s) p s2
  | none =>
    release_stage cfg e
      { st with logs := st.logs ++ [log_data (part_label p) s t0 st.now] } s

/-- Dispatch one event. -/
def handle_event (cfg : Config) (e : ℕ → ℚ) (st : SimState) : EvKind → SimState
  | EvKind.arrival => handle_arrival cfg e st
  | EvKind.part_init p => request_stage cfg e st p Stage.prep
  | EvKind.service_done p s t0 => handle_service_done cfg e st p s t0

/-- One scheduler step of env.run(until=sim_duration): halt on a failed
run; with an empty queue do nothing; otherwise pop the earliest event,
and either stop with the clock at the horizon when its time exceeds the
horizon, or advance the clock to it and dispatch it (modelled from the
spec, section 4.1). -/
def step (cfg : Config) (e : ℕ → ℚ) (st : SimState) : SimState :=
  if st.failed.isSome then st
  else
    match st.queue with
    | [] => st
    | ev :: rest =>
      if cfg.sim_duration < ev.1 then { st with queue := [], now := cfg.sim_duration }
      else handle_event cfg e { st with now := ev.1, queue := rest } ev.2.2

/-- The state right after env.process(part_generator(...)) has run up to
its first yield: clock 0, empty pools and trace, and the first arrival
scheduled after one inter-arrival draw (src/app.py lines 101-104, 96). -/
def init_state (cfg : Config) (e : ℕ → ℚ) : SimState :=
  let base : SimState :=
    ⟨0, 0, [], ⟨cfg.c_prep, 0, []⟩, ⟨cfg.c_machining, 0, []⟩, ⟨cfg.c_qc, 0, []⟩,
      [], 0, 0, none⟩
  match draw_exp cfg.arrival_rate e 0 with
  | Except.error er => { base with draws := 1, failed := some er }
  | Except.ok a =>
    if a < 0 then { base with draws := 1, failed := some SimError.negative_delay }
    else { base with draws := 1, seq := 1, queue := [(a, 0, EvKind.arrival)] }

/-- Iterate the scheduler a given number of steps. -/
def run_loop (cfg : Config) (e : ℕ → ℚ) : ℕ → SimState → SimState
  | 0, st => st
  | Nat.succ n, st => run_loop cfg e n (step cfg e st)

/-- The whole run as a function of the configuration and the stream of
exponential variate values. -/
def run_sim (cfg : Config) (e : ℕ → ℚ) (fuel : ℕ) : SimState :=
  run_loop cfg e fuel (init_state cfg e)

/-- The work the button handler performs between the click and the start
of env.run (src/app.py lines 101-107): it constructs the environment,
the ProductionLine and the generator process, and checks nothing, so it
never fails for any configuration. -/
def pre_run_validation (_cfg : Config) : Except SimError Unit :=
  Except.ok ()

/-! Run invariants: every pending completion event finishes no earlier
than the service start it carries, and every logged record was produced
by log_data from an interval that lies within the horizon. -/

/-- Queue invariant: completion events carry a start time no later than
their scheduled time. -/
def queue_ok (q : List Ev) : Prop :=
  ∀ ev ∈ q, ∀ p s t0, ev.2.2 = EvKind.service_done p s t0 → t0 ≤ ev.1

/-- Log invariant: duration is finish minus start, non-negative, and
the finish time is within the horizon. -/
def logs_ok (horizon : ℚ) (l : List StageRecord) : Prop :=
  ∀ r ∈ l, r.duration = r.finish - r.start ∧ 0 ≤ r.duration ∧ r.finish ≤ horizon

/-- Both run invariants together. -/
def sim_inv (cfg : Config) (st : SimState) : Prop :=
  queue_ok st.queue ∧ logs_ok cfg.sim_duration st.logs

theorem mem_insert_ev {q : List Ev} {x ev : Ev} (h : ev ∈ insert_ev q x) :
    ev ∈ q ∨ ev = x := by
  induction q with
  | nil =>
    rw [insert_ev, List.mem_singleton] at h
    exact Or.inr h
  | cons y ys ih =>
    rw [insert_ev] at h
    split_ifs at h with hc
    · rcases List.mem_cons.mp h with h1 | h1
      · exact Or.inr h1
      · exact Or.inl h1
    · rcases List.mem_cons.mp h with h1 | h1
      · exact Or.inl (h1 ▸ List.mem_cons_self y ys)
      · rcases ih h1 with h2 | h2
        · exact Or.inl (List.mem_cons_of_mem y h2)
        · exact Or.inr h2

theorem queue_ok_insert {q : List Ev} {x : Ev} (hq : queue_ok q)
    (hx : ∀ p s t0, x.2.2 = EvKind.service_done p s t0 → t0 ≤ x.1) :
    queue_ok (insert_ev q x) := by
  intro ev hev p s t0 hk
  rcases mem_insert_ev hev with h | h
  · exact hq ev h p s t0 hk
  · subst h
    exact hx p s t0 hk

theorem queue_ok_tail {ev : Ev} {rest : List Ev} (h : queue_ok (ev :: rest)) :
    queue_ok rest :=
  fun e2 h2 => h e2 (List.mem_cons_of_mem _ h2)

theorem queue_ok_nil : queue_ok [] :=
  fun e2 h2 => absurd h2 (List.not_mem_nil e2)

theorem set_pool_queue (st : SimState) (s : Stage) (p : Pool) :
    (set_pool st s p).queue = st.queue := by
  cases s <;> rfl

theorem set_pool_logs (st : SimState) (s : Stage) (p : Pool) :
    (set_pool st s p).logs = st.logs := by
  cases s <;> rfl

theorem start_service_logs (cfg : Config) (e : ℕ → ℚ) (st : SimState) (p : ℕ) (s : Stage) :
    (start_service cfg e st p s).logs = st.logs := by
  unfold start_service
  split
  · rfl
  · split <;> rfl

theorem start_service_queue_ok (cfg : Config) (e : ℕ → ℚ) (st : SimState) (p : ℕ) (s : Stage)
    (hq : queue_ok st.queue) : queue_ok (start_service cfg e st p s).queue := by
  unfold start_service
  split
  · exact hq
  · rename_i d heq
    split
    · exact hq
    · rename_i hneg
      refine queue_ok_insert hq ?_
      intro p2 s2 t0 hk
      injection hk with h1 h2 h3
      subst h3
      exact le_add_of_nonneg_right (not_lt.mp hneg)

theorem request_stage_logs (cfg : Config) (e : ℕ → ℚ) (st : SimState) (p : ℕ) (s : Stage) :
    (request_stage cfg e st p s).logs = st.logs := by
  unfold request_stage
  split
  · rw [start_service_logs, set_pool_logs]
  · rw [set_pool_logs]

theorem request_stage_queue_ok (cfg : Config) (e : ℕ → ℚ) (st : SimState) (p : ℕ) (s : Stage)
    (hq : queue_ok st.queue) : queue_ok (request_stage cfg e st p s).queue := by
  unfold request_stage
  split
  · exact start_service_queue_ok _ _ _ _ _ (by rw [set_pool_queue]; exact hq)
  · rw [set_pool_queue]
    exact hq

theorem release_stage_logs (cfg : Config) (e : ℕ → ℚ) (st : SimState) (s : Stage) :
    (release_stage cfg e st s).logs = st.logs := by
  unfold release_stage
  split
  · rw [set_pool_logs]
  · rw [start_service_logs, set_pool_logs]

theorem release_stage_queue_ok (cfg : Config) (e : ℕ → ℚ) (st : SimState) (s : Stage)
    (hq : queue_ok st.queue) : queue_ok (release_stage cfg e st s).queue := by
  unfold release_stage
  split
  · rw [set_pool_queue]
    exact hq
  · exact start_service_queue_ok _ _ _ _ _ (by rw [set_pool_queue]; exact hq)

theorem handle_arrival_logs (cfg : Config) (e : ℕ → ℚ) (st : SimState) :
    (handle_arrival cfg e st).logs = st.logs := by
  unfold handle_arrival
  split
  · rfl
  · split <;> rfl

theorem handle_arrival_queue_ok (cfg : Config) (e : ℕ → ℚ) (st : SimState)
    (hq : queue_ok st.queue) : queue_ok (handle_arrival cfg e st).queue := by
  have h1 : queue_ok
      (insert_ev st.queue (st.now, st.seq, EvKind.part_init (st.next_part + 1))) :=
    queue_ok_insert hq (by intro p s t0 hk; cases hk)
  unfold handle_arrival
  split
  · exact h1
  · split
    · exact h1
    · exact queue_ok_insert h1 (by intro p s t0 hk; cases hk)

theorem handle_service_done_inv (cfg : Config) (e : ℕ → ℚ) (st : SimState)
    (p : ℕ) (s : Stage) (t0 : ℚ)
    (hq : queue_ok st.queue) (hl : logs_ok cfg.sim_duration st.logs)
    (ht0 : t0 ≤ st.now) (hnow : st.now ≤ cfg.sim_duration) :
    queue_ok (handle_service_done cfg e st p s t0).queue ∧
    logs_ok cfg.sim_duration (handle_service_done cfg e st p s t0).logs := by
  have hl1 : logs_ok cfg.sim_duration
      (st.logs ++ [log_data (part_label p) s t0 st.now]) := by
    intro r hr
    rcases List.mem_append.mp hr with h | h
    · exact hl r h
    · rw [List.mem_singleton] at h
      subst h
      refine ⟨rfl, ?_, hnow⟩
      show (0 : ℚ) ≤ st.now - t0
      linarith
  unfold handle_service_done
  split
  · constructor
    · exact request_stage_queue_ok _ _ _ _ _
        (release_stage_queue_ok _ _ _ _ hq)
    · rw [request_stage_logs, release_stage_logs]
      exact hl1
  · constructor
    · exact release_stage_queue_ok _ _ _ _ hq
    · rw [release_stage_logs]
      exact hl1

theorem step_inv (cfg : Config) (e : ℕ → ℚ) (st : SimState)
    (h : sim_inv cfg st) : sim_inv cfg (step cfg e st) := by
  obtain ⟨hq, hl⟩ := h
  unfold step
  split
  · exact ⟨hq, hl⟩
  · split
    · exact ⟨hq, hl⟩
    · rename_i ev rest heq
      rw [heq] at hq
      obtain ⟨t, n, k⟩ := ev
      split
      · exact ⟨queue_ok_nil, hl⟩
      · rename_i hle
        have hq1 : queue_ok rest := queue_ok_tail hq
        cases k with
        | arrival =>
          dsimp only [handle_event]
          constructor
          · exact handle_arrival_queue_ok _ _ _ hq1
          · rw [handle_arrival_logs]
            exact hl
        | part_init p =>
          dsimp only [handle_event]
          constructor
          · exact request_stage_queue_ok _ _ _ _ _ hq1
          · rw [request_stage_logs]
            exact hl
        | service_done p s t0 =>
          dsimp only [handle_event]
          have ht0 : t0 ≤ t :=
            hq (t, n, EvKind.service_done p s t0) (List.mem_cons_self _ _) p s t0 rfl
          exact handle_service_done_inv cfg e _ p s t0 hq1 hl ht0 (not_lt.mp hle)

theorem init_state_inv (cfg : Config) (e : ℕ → ℚ) :
    sim_inv cfg (init_state cfg e) := by
  unfold init_state
  split
  · exact ⟨queue_ok_nil, fun r hr => absurd hr (List.not_mem_nil r)⟩
  · split
    · exact ⟨queue_ok_nil, fun r hr => absurd hr (List.not_mem_nil r)⟩
    · constructor
      · intro ev hev p s t0 hk
        rw [List.mem_singleton] at hev
        subst hev
        cases hk
      · exact fun r hr => absurd hr (List.not_mem_nil r)

theorem run_loop_inv (cfg : Config) (e : ℕ → ℚ) (fuel : ℕ) (st : SimState)
    (h : sim_inv cfg st) : sim_inv cfg (run_loop cfg e fuel st) := by
  induction fuel generalizing st with
  | zero => exact h
  | succ n ih => exact ih _ (step_inv cfg e st h)

theorem run_sim_inv (cfg : Config) (e : ℕ → ℚ) (fuel : ℕ) :
    sim_inv cfg (run_sim cfg e fuel) :=
  run_loop_inv cfg e fuel _ (init_state_inv cfg e)

/-- Claim C8: the run is a deterministic function of the configuration
and the random draws: two runs over the same configuration, the same
variate stream and the same step budget produce the same final state,
hence an identical trace log and an identical metrics summary. -/
theorem run_determinism (cfg : Config) (e1 e2 : ℕ → ℚ) (fuel : ℕ)
    (h : ∀ n, e1 n = e2 n) :
    run_sim cfg e1 fuel = run_sim cfg e2 fuel ∧
    metrics_block cfg (run_sim cfg e1 fuel).logs =
      metrics_block cfg (run_sim cfg e2 fuel).logs := by
  have he : e1 = e2 := funext h
  subst he
  exact ⟨rfl, rfl⟩

/-- Witness for C8: two syntactically different but pointwise equal
streams over the default configuration. -/
theorem run_determinism_witness :
    run_sim cfg0 (fun _ => (1 : ℚ)/2) 6 = run_sim cfg0 (fun _ => (2 : ℚ)/4) 6 ∧
    metrics_block cfg0 (run_sim cfg0 (fun _ => (1 : ℚ)/2) 6).logs =
      metrics_block cfg0 (run_sim cfg0 (fun _ => (2 : ℚ)/4) 6).logs :=
  run_determinism cfg0 (fun _ => (1 : ℚ)/2) (fun _ => (2 : ℚ)/4) 6 (fun n => by norm_num)

/-- Claim C10: a stage interval is logged only by its completion event,
so a service still in flight when the run stops leaves no StageRecord;
every record of every run finishes within the horizon, and only logged
QC records enter finished_parts, hence revenue, material cost and
throughput. -/
theorem in_flight_work_excluded (cfg : Config) (e : ℕ → ℚ) (fuel : ℕ)
    (r : StageRecord) (hr : r ∈ (run_sim cfg e fuel).logs) :
    r.finish ≤ cfg.sim_duration :=
  ((run_sim_inv cfg e fuel).2 r hr).2.2

/-- Witness for C10: the first prep record of a concrete run under the
default configuration. -/
theorem in_flight_work_excluded_witness :
    (log_data (part_label 1) Stage.prep (1/2) (3/2)).finish ≤ cfg0.sim_duration :=
  in_flight_work_excluded cfg0 (fun _ => (1 : ℚ)/10) 6 _
    (by norm_num [run_sim, run_loop, init_state, step, handle_event, handle_arrival,
      handle_service_done, request_stage, release_stage, start_service, draw_exp, insert_ev,
      stage_mean, stage_pool, set_pool, next_stage, cfg0, log_data, part_label])

/-- Claim C7 amended: every record of every run has Duration equal to
finish minus start and non-negative; strict positivity can fail, because
a sampled duration can be exactly zero. -/
theorem record_duration_nonneg (cfg : Config) (e : ℕ → ℚ) (fuel : ℕ)
    (r : StageRecord) (hr : r ∈ (run_sim cfg e fuel).logs) :
    r.duration = r.finish - r.start ∧ 0 ≤ r.duration :=
  ⟨((run_sim_inv cfg e fuel).2 r hr).1, ((run_sim_inv cfg e fuel).2 r hr).2.1⟩

/-- Witness for C7 (amended): the first prep record of a concrete run. -/
theorem record_duration_nonneg_witness :
    (log_data (part_label 1) Stage.prep 1 3).duration =
        (log_data (part_label 1) Stage.prep 1 3).finish -
          (log_data (part_label 1) Stage.prep 1 3).start ∧
    0 ≤ (log_data (part_label 1) Stage.prep 1 3).duration :=
  record_duration_nonneg cfg0 (fun _ => (1 : ℚ)/5) 6 _
    (by norm_num [run_sim, run_loop, init_state, step, handle_event, handle_arrival,
      handle_service_done, request_stage, release_stage, start_service, draw_exp, insert_ev,
      stage_mean, stage_pool, set_pool, next_stage, cfg0, log_data, part_label])

/-- Claim C7 fails as stated: random.expovariate returns exactly 0 when
the underlying uniform draw is 0, and then the logged record has
finish = start, so its Duration is 0 rather than strictly positive.
The run below feeds the prep service draw (stream index 2) a zero
variate; the resulting trace holds a duration-0 record. -/
theorem record_duration_zero_possible :
    expovariate 1 0 = 0 ∧
    log_data (part_label 1) Stage.prep 5 5 ∈
      (run_sim cfg0 (fun n => if n = 2 then 0 else 1) 5).logs ∧
    ¬ 0 < (log_data (part_label 1) Stage.prep 5 5).duration := by
  refine ⟨?_, ?_, ?_⟩
  · simp [expovariate]
  · norm_num [run_sim, run_loop, init_state, step, handle_event, handle_arrival,
      handle_service_done, request_stage, release_stage, start_service, draw_exp, insert_ev,
      stage_mean, stage_pool, set_pool, next_stage, cfg0, log_data, part_label]
  · norm_num [log_data]

/-- A configuration with a zero prep mean, reachable through the Prep
Time number input (src/app.py line 33, no lower bound). -/
def cfg_zero_mean : Config :=
  ⟨2, 1, 2, 0, 15, 8, 150, 20, 40, 480, 5⟩

/-- A configuration with a negative prep mean, likewise reachable. -/
def cfg_neg_mean : Config :=
  ⟨2, 1, 2, -10, 15, 8, 150, 20, 40, 480, 5⟩

/-- Claim C6 fails as stated: for a configuration with a non-positive
mean cycle time, nothing between the button press and env.run validates
the configuration, no InvalidParameter is produced, and the run starts. -/
theorem no_validation_before_run :
    cfg_zero_mean.t_prep ≤ 0 ∧
    pre_run_validation cfg_zero_mean = Except.ok () ∧
    pre_run_validation cfg_zero_mean ≠ Except.error SimError.invalid_parameter := by
  refine ⟨by norm_num [cfg_zero_mean], rfl, by simp [pre_run_validation]⟩

/-- Claim C6 amended: the source performs no configuration validation,
so the run starts for every configuration; a zero mean instead fails
during the run with a division-by-zero at the first sampling that needs
1.0/mean, and a negative mean fails during the run when its negative
sampled delay is rejected by the timeout. -/
theorem validation_deferred_to_run :
    (∀ cfg : Config, pre_run_validation cfg = Except.ok ()) ∧
    (run_sim cfg_zero_mean (fun _ => (1 : ℚ)/2) 4).failed = some SimError.zero_division ∧
    (run_sim cfg_neg_mean (fun _ => (1 : ℚ)/2) 4).failed = some SimError.negative_delay := by
  refine ⟨fun cfg => rfl, ?_, ?_⟩
  · norm_num [run_sim, run_loop, init_state, step, handle_event, handle_arrival,
      handle_service_done, request_stage, release_stage, start_service, draw_exp, insert_ev,
      stage_mean, stage_pool, set_pool, next_stage, cfg_zero_mean]
  · norm_num [run_sim, run_loop, init_state, step, handle_event, handle_arrival,
      handle_service_done, request_stage, release_stage, start_service, draw_exp, insert_ev,
      stage_mean, stage_pool, set_pool, next_stage, cfg_neg_mean]
